import Mathlib

/-!
Shallow embedding of the transcoder_backend pipeline (src/index.js).

The program is an Express service with one significant route,
POST /transcode.  The handler validates the request body, replies
immediately, and then runs a linear pipeline inside try/catch/finally:

  1. look up the job record (supabase `videos` table, select raw_path);
  2. download the source from the `raw_uploads` bucket;
  3. generate a thumbnail with ffmpeg (errors are swallowed: the promise
     resolves even in the error handler);
  4. transcode to HLS with ffmpeg (errors are fatal: rejected and rethrown);
  5. upload the thumbnail to the `thumbnails` bucket if the file exists
     (upload errors are only warned about);
  6. upload every file found in the HLS staging directory to the `hls`
     bucket (upload errors are only warned about);
  7. update the record to status `ready`;
  catch: update the record to status `failed`;
  finally: rmSync both staging directories.

External effects (record store, blob store, ffmpeg) are driven by an
environment `Env` of call outcomes, and the run is recorded as a trace of
`Event`s plus a final local-filesystem state `FsState` that tracks the two
staging directories the program uses.
-/

/-- Outcomes of the external calls made during one run of the pipeline:
the record lookup result, whether the download succeeds, whether each
ffmpeg invocation succeeds, which extra files the transcode writes, and
the outcome of each storage upload. -/
structure Env where
  dbLookup : Option String
  downloadOk : Bool
  thumbOk : Bool
  transcodeOk : Bool
  segmentFiles : List String
  thumbUploadOk : Bool
  hlsUploadOk : String → Bool

/-- The record update performed at the end of a run: on success the code
sets status `ready` together with `hls_path` and `thumbnail_path`
(possibly null); on failure it sets only status `failed`. -/
inductive DbUpdate where
  | ready (hls_path : String) (thumbnail_path : Option String)
  | failed
deriving DecidableEq, Repr

/-- One observable step of the handler: the HTTP response, the record
store and blob store calls (uploads and downloads carry their outcome),
the two ffmpeg invocations, directory creation and removal. -/
inductive Event where
  | respond (status : Nat)
  | dbSelect (id : String)
  | storageDownload (bucket key : String) (ok : Bool)
  | storageUpload (bucket key contentType : String) (ok : Bool)
  | ffmpegScreenshot (source folder filename size : String)
  | ffmpegTranscode (source : String) (outputOptions : List String) (output : String)
  | dbUpdate (id : String) (u : DbUpdate)
  | mkdirSync (path : String)
  | rmDir (path : String)
deriving DecidableEq, Repr

/-- Local filesystem state restricted to the two staging directories the
program touches: whether each exists and which files it holds. -/
structure FsState where
  rawDirExists : Bool
  hlsDirExists : Bool
  rawFiles : List String
  hlsFiles : List String
deriving DecidableEq, Repr

/-- `path.join('/tmp', 'temp_raw')` — fixed, not derived from the job id. -/
def tempRawDir : String := "/tmp" ++ "/" ++ "temp_raw"

/-- `path.join('/tmp', 'temp_hls')` — fixed, not derived from the job id. -/
def tempHlsDir : String := "/tmp" ++ "/" ++ "temp_hls"

/-- `path.join(tempRawDir, videoId + '.mp4')`. -/
def localRawPath (videoId : String) : String := tempRawDir ++ "/" ++ videoId ++ ".mp4"

/-- `path.join(tempHlsDir, 'playlist.m3u8')`. -/
def localHlsPlaylistPath : String := tempHlsDir ++ "/" ++ "playlist.m3u8"

/-- `path.join(tempHlsDir, 'thumbnail.png')`. -/
def localThumbnailPath : String := tempHlsDir ++ "/" ++ "thumbnail.png"

/-- The thumbnail storage key, `videoId + '.png'`. -/
def thumbnailFileName (videoId : String) : String := videoId ++ ".png"

/-- The outputOptions passed to the single transcoding ffmpeg invocation. -/
def hlsOutputOptions : List String :=
  ["-c:v h264", "-hls_time 10", "-hls_list_size 0", "-f hls", "-vf scale=640:-2"]

/-- The JS test `file.endsWith(post)`, expressed on the character data so
that it evaluates by computation. -/
def strEndsWith (s post : String) : Bool := post.data.isSuffixOf s.data

/-- Content type chosen per uploaded HLS file:
`file.endsWith('.m3u8') ? 'application/vnd.apple.mpegurl' : 'video/MP2T'`. -/
def hlsContentType (file : String) : String :=
  if strEndsWith file ".m3u8" then "application/vnd.apple.mpegurl" else "video/MP2T"

/-- Filesystem state right after the two `mkdirSync` calls. -/
def afterMkdirFs : FsState :=
  { rawDirExists := true, hlsDirExists := true, rawFiles := [], hlsFiles := [] }

/-- Filesystem state when the staging directories were never created. -/
def emptyFs : FsState :=
  { rawDirExists := false, hlsDirExists := false, rawFiles := [], hlsFiles := [] }

/-- Effect of `fs.rmSync(tempRawDir, { recursive: true, force: true })`. -/
def rmSyncTempRaw (fs : FsState) : FsState :=
  { fs with rawDirExists := false, rawFiles := [] }

/-- Effect of `fs.rmSync(tempHlsDir, { recursive: true, force: true })`. -/
def rmSyncTempHls (fs : FsState) : FsState :=
  { fs with hlsDirExists := false, hlsFiles := [] }

/-- Result of the try block: its events, the filesystem it leaves behind,
and whether it ran to completion (no exception thrown). -/
structure TryResult where
  events : List Event
  fs : FsState
  completed : Bool

/-- The body of the handler's try block, step by step as in src/index.js:
record lookup (throws when the row or the select errors), download
(throws on error), thumbnail generation (never throws: the error handler
resolves), transcode (throws on error), conditional thumbnail upload
(warn-only), upload loop over `fs.readdirSync(tempHlsDir)` (warn-only),
and the final `ready` record update. -/
def pipelineTry (videoId : String) (env : Env) : TryResult :=
  let fs0 := afterMkdirFs
  let ev0 : List Event := [.dbSelect videoId]
  match env.dbLookup with
  | none => { events := ev0, fs := fs0, completed := false }
  | some raw_path =>
    let ev1 := ev0 ++ [.storageDownload "raw_uploads" raw_path env.downloadOk]
    if env.downloadOk then
      let fs1 := { fs0 with rawFiles := fs0.rawFiles ++ [videoId ++ ".mp4"] }
      let ev2 := ev1 ++ [.ffmpegScreenshot (localRawPath videoId) tempHlsDir "thumbnail.png" "320x180"]
      let fs2 := if env.thumbOk then { fs1 with hlsFiles := fs1.hlsFiles ++ ["thumbnail.png"] } else fs1
      let ev3 := ev2 ++ [.ffmpegTranscode (localRawPath videoId) hlsOutputOptions localHlsPlaylistPath]
      if env.transcodeOk then
        let fs3 := { fs2 with hlsFiles := fs2.hlsFiles ++ ["playlist.m3u8"] ++ env.segmentFiles }
        let thumbExists := fs3.hlsFiles.contains "thumbnail.png"
        let ev4 := ev3 ++ (if thumbExists then
          [.storageUpload "thumbnails" (thumbnailFileName videoId) "image/png" env.thumbUploadOk]
          else [])
        let ev5 := ev4 ++ fs3.hlsFiles.map (fun file =>
          .storageUpload "hls" (videoId ++ "/" ++ file) (hlsContentType file) (env.hlsUploadOk file))
        let thumbnail_path : Option String :=
          if fs3.hlsFiles.contains "thumbnail.png" then some (thumbnailFileName videoId) else none
        let ev6 := ev5 ++ [.dbUpdate videoId (.ready (videoId ++ "/" ++ "playlist.m3u8") thumbnail_path)]
        { events := ev6, fs := fs3, completed := true }
      else
        { events := ev3, fs := fs2, completed := false }
    else
      { events := ev1, fs := fs0, completed := false }

/-- The HTTP response of the route. -/
inductive ResponseBody where
  | error (msg : String)
  | message (msg : String)
deriving DecidableEq, Repr

/-- Status and body sent back by the route. -/
structure Response where
  status : Nat
  body : ResponseBody
deriving DecidableEq, Repr

/-- What a call of the POST /transcode handler produces: the HTTP
response, the ordered trace of observable events, and the final local
filesystem state. -/
structure HandlerResult where
  response : Response
  events : List Event
  fs : FsState

/-- The JS truthiness test `!videoId` applied to a string-or-absent body
field: true when the field is absent or the empty string. -/
def videoIdFalsy : Option String → Bool
  | none => true
  | some s => s.isEmpty

/-- The POST /transcode handler of src/index.js.  `videoId` is the body
field (absent or a string).  A falsy videoId gets a 400 response and
nothing else happens.  Otherwise the 202 response is sent first, the
staging directories are created, the try block runs, the catch block
writes the `failed` record update exactly when the try block threw, and
the finally block removes both staging directories unconditionally. -/
def transcodeHandler (videoId : Option String) (env : Env) : HandlerResult :=
  match videoId with
  | none =>
    { response := { status := 400, body := .error "videoId is required" },
      events := [.respond 400], fs := emptyFs }
  | some vid =>
    if vid.isEmpty then
      { response := { status := 400, body := .error "videoId is required" },
        events := [.respond 400], fs := emptyFs }
    else
      let r := pipelineTry vid env
      let catchEvents : List Event := if r.completed then [] else [.dbUpdate vid .failed]
      { response := { status := 202, body := .message ("Accepted. Processing video: " ++ vid) },
        events := [.respond 202, .mkdirSync tempRawDir, .mkdirSync tempHlsDir]
          ++ r.events ++ catchEvents ++ [.rmDir tempRawDir, .rmDir tempHlsDir],
        fs := rmSyncTempHls (rmSyncTempRaw r.fs) }

/-- The record updates that occur in a trace, in order. -/
def dbUpdatesOf (events : List Event) : List DbUpdate :=
  events.filterMap fun e => match e with
    | .dbUpdate _ u => some u
    | _ => none

/-- The last record update of a trace: the status the run leaves behind. -/
def finalUpdate (events : List Event) : Option DbUpdate :=
  (dbUpdatesOf events).getLast?

/-- Whether an event is a blob store call (download or upload). -/
def Event.isBlobStoreOp : Event → Bool
  | .storageDownload _ _ _ => true
  | .storageUpload _ _ _ _ => true
  | _ => false

/-- Whether an event is an invocation of the external encoder. -/
def Event.isEncoderCall : Event → Bool
  | .ffmpegScreenshot _ _ _ _ => true
  | .ffmpegTranscode _ _ _ => true
  | _ => false

/-- The transcoding encoder invocations of a trace. -/
def transcodeEvents (events : List Event) : List Event :=
  events.filter fun e => match e with
    | .ffmpegTranscode _ _ _ => true
    | _ => false

/-- The directory-creation paths of a trace, in order. -/
def mkdirPaths (events : List Event) : List String :=
  events.filterMap fun e => match e with
    | .mkdirSync p => some p
    | _ => none

/-- Whether `pat` occurs as a contiguous run inside `l`. -/
def occursIn (pat : List Char) : List Char → Bool
  | [] => pat.isEmpty
  | c :: rest => pat.isPrefixOf (c :: rest) || occursIn pat rest

/-- Substring test: `pat` occurs inside `s`. -/
def containsStr (s pat : String) : Bool :=
  occursIn pat.data s.data

/-- Modelled from the spec: the claimed fixed three-rendition ladder
(heights 720/480/240 at 2000/800/400 kbit per s, AAC audio at 128 kbit
per s, VOD playlist type).  An encoder invocation carries the ladder only
if each of these parameters is mentioned somewhere in its options. -/
def specLadderMentioned (opts : List String) : Bool :=
  ["720", "2000", "480", "800", "240", "400", "aac", "128", "vod"].all
    fun pat => opts.any fun o => containsStr o pat

/-- A baseline environment where every external call succeeds. -/
def envAllOk : Env :=
  { dbLookup := some "v.mp4", downloadOk := true, thumbOk := true,
    transcodeOk := true, segmentFiles := ["playlist0.ts", "playlist1.ts"],
    thumbUploadOk := true, hlsUploadOk := fun _ => true }

example : finalUpdate (transcodeHandler (some "abc123") envAllOk).events
    = some (.ready ("abc123/playlist.m3u8") (some "abc123.png")) := by decide

example : (transcodeHandler (some "abc123") envAllOk).fs = emptyFs := by decide

example : (transcodeHandler none envAllOk).response.status = 400 := by decide

/-! ## Helper lemmas -/

/-- Record updates distribute over trace concatenation. -/
theorem dbUpdatesOf_append (l1 l2 : List Event) :
    dbUpdatesOf (l1 ++ l2) = dbUpdatesOf l1 ++ dbUpdatesOf l2 := by
  simp [dbUpdatesOf]

/-- The upload fan-out contributes no record updates to the trace. -/
theorem dbUpdatesOf_upload_map (vid : String) (ok : String → Bool) (files : List String) :
    dbUpdatesOf (files.map fun file =>
      .storageUpload "hls" (vid ++ "/" ++ file) (hlsContentType file) (ok file)) = [] := by
  induction files with
  | nil => rfl
  | cons f fs ih => simp [dbUpdatesOf] at ih ⊢

/-- Transcoding invocations distribute over trace concatenation. -/
theorem transcodeEvents_append (l1 l2 : List Event) :
    transcodeEvents (l1 ++ l2) = transcodeEvents l1 ++ transcodeEvents l2 := by
  simp [transcodeEvents]

/-- The upload fan-out contributes no transcoding invocations to the trace. -/
theorem transcodeEvents_upload_map (vid : String) (ok : String → Bool) (files : List String) :
    transcodeEvents (files.map fun file =>
      Event.storageUpload "hls" (vid ++ "/" ++ file) (hlsContentType file) (ok file)) = [] := by
  induction files with
  | nil => rfl
  | cons f fs ih => simp [transcodeEvents, ih]

/-! ## Concrete environments used by witnesses and counterexamples -/

/-- An environment where thumbnail generation fails and everything else
succeeds. -/
def envNoThumb : Env :=
  { dbLookup := some "v.mp4", downloadOk := true, thumbOk := false,
    transcodeOk := true, segmentFiles := ["playlist0.ts"],
    thumbUploadOk := true, hlsUploadOk := fun _ => true }

/-- An environment where the upload of the master playlist to the hls
bucket fails and everything else succeeds. -/
def envPlaylistUploadFails : Env :=
  { dbLookup := some "v.mp4", downloadOk := true, thumbOk := true,
    transcodeOk := true, segmentFiles := ["playlist0.ts"],
    thumbUploadOk := true, hlsUploadOk := fun f => !(f == "playlist.m3u8") }

/-- An environment where the record lookup fails. -/
def envNoRecord : Env :=
  { dbLookup := none, downloadOk := true, thumbOk := true,
    transcodeOk := true, segmentFiles := [],
    thumbUploadOk := true, hlsUploadOk := fun _ => true }

/-- An environment where the source download fails. -/
def envNoDownload : Env :=
  { dbLookup := some "v.mp4", downloadOk := false, thumbOk := true,
    transcodeOk := true, segmentFiles := [],
    thumbUploadOk := true, hlsUploadOk := fun _ => true }

/-! ## Claims -/

/-- Claim C1: when thumbnail extraction fails but the download, the
transcode and every required artifact upload succeed, the run ends with
the record's status set to `ready` and `thumbnail_path` null — not with
status `failed`. -/
theorem C1_thumbnail_failure_still_ready (vid raw : String) (env : Env)
    (hvid : vid.isEmpty = false)
    (hdb : env.dbLookup = some raw)
    (hdl : env.downloadOk = true)
    (hth : env.thumbOk = false)
    (htr : env.transcodeOk = true)
    (hseg : "thumbnail.png" ∉ env.segmentFiles)
    (_hup : ∀ f, env.hlsUploadOk f = true) :
    finalUpdate (transcodeHandler (some vid) env).events =
      some (DbUpdate.ready (vid ++ "/playlist.m3u8") none) := by
  simp [transcodeHandler, pipelineTry, finalUpdate, hvid, hdb, hdl, hth, htr, hseg,
    dbUpdatesOf_append, dbUpdatesOf_upload_map, dbUpdatesOf, afterMkdirFs,
    String.append_assoc]

/-- Witness for C1 at job id `abc123` in an environment where only
thumbnail generation fails. -/
theorem C1_thumbnail_failure_still_ready_witness :
    ("abc123" : String).isEmpty = false ∧
    "thumbnail.png" ∉ envNoThumb.segmentFiles ∧
    (∀ f, envNoThumb.hlsUploadOk f = true) ∧
    finalUpdate (transcodeHandler (some "abc123") envNoThumb).events =
      some (DbUpdate.ready ("abc123" ++ "/playlist.m3u8") none) :=
  ⟨by decide, by decide, fun _ => rfl,
    C1_thumbnail_failure_still_ready "abc123" "v.mp4" envNoThumb rfl rfl rfl rfl rfl
      (by decide) (fun _ => rfl)⟩

/-- Counterexample to claim C2: in a run where the upload of the master
playlist to the hls bucket fails (the failed upload event is in the
trace), the record still ends with status `ready`, not `failed`: HLS
upload errors are only warned about in src/index.js. -/
theorem C2_upload_failure_not_failed_counterexample :
    (Event.storageUpload "hls" ("vid1" ++ "/" ++ "playlist.m3u8")
        "application/vnd.apple.mpegurl" false)
      ∈ (transcodeHandler (some "vid1") envPlaylistUploadFails).events ∧
    finalUpdate (transcodeHandler (some "vid1") envPlaylistUploadFails).events =
      some (DbUpdate.ready ("vid1" ++ "/" ++ "playlist.m3u8") (some "vid1.png")) ∧
    finalUpdate (transcodeHandler (some "vid1") envPlaylistUploadFails).events ≠
      some DbUpdate.failed := by decide

/-- Claim C2 as amended: when the upload of the master playlist or of a
media segment fails, the failure is only logged; a run whose lookup,
download and transcode succeeded still ends with status `ready`, never
`failed`, whatever the upload outcomes. -/
theorem C2_upload_failure_still_ready (vid raw : String) (env : Env)
    (hvid : vid.isEmpty = false)
    (hdb : env.dbLookup = some raw)
    (hdl : env.downloadOk = true)
    (htr : env.transcodeOk = true)
    (hseg : "thumbnail.png" ∉ env.segmentFiles)
    (_hfail : ∃ f ∈ "playlist.m3u8" :: env.segmentFiles, env.hlsUploadOk f = false) :
    finalUpdate (transcodeHandler (some vid) env).events =
      some (DbUpdate.ready (vid ++ "/playlist.m3u8")
        (if env.thumbOk then some (thumbnailFileName vid) else none)) ∧
    finalUpdate (transcodeHandler (some vid) env).events ≠ some DbUpdate.failed := by
  cases hth : env.thumbOk <;>
    simp [transcodeHandler, pipelineTry, finalUpdate, hvid, hdb, hdl, hth, htr, hseg,
      dbUpdatesOf_append, dbUpdatesOf_upload_map, dbUpdatesOf, afterMkdirFs,
      String.append_assoc, thumbnailFileName]

/-- Witness for the amended C2 at job id `vid1` in an environment where
the master playlist upload fails. -/
theorem C2_upload_failure_still_ready_witness :
    (∃ f ∈ "playlist.m3u8" :: envPlaylistUploadFails.segmentFiles,
      envPlaylistUploadFails.hlsUploadOk f = false) ∧
    finalUpdate (transcodeHandler (some "vid1") envPlaylistUploadFails).events ≠
      some DbUpdate.failed :=
  ⟨⟨"playlist.m3u8", by decide, rfl⟩,
    (C2_upload_failure_still_ready "vid1" "v.mp4" envPlaylistUploadFails rfl rfl rfl rfl
      (by decide) ⟨"playlist.m3u8", by decide, rfl⟩).2⟩

/-- Counterexample to claim C3: in a fully successful concrete run, the
single encoder transcoding invocation carries the options of
src/index.js, and those options mention none of the claimed
three-rendition-ladder parameters (no 720/480/240 heights, no
2000/800/400 bitrates, no AAC, no 128k audio, no VOD playlist type). -/
theorem C3_no_rendition_ladder_counterexample :
    transcodeEvents (transcodeHandler (some "vid3") envAllOk).events =
      [Event.ffmpegTranscode (localRawPath "vid3") hlsOutputOptions localHlsPlaylistPath] ∧
    specLadderMentioned hlsOutputOptions = false ∧
    finalUpdate (transcodeHandler (some "vid3") envAllOk).events =
      some (DbUpdate.ready ("vid3" ++ "/" ++ "playlist.m3u8") (some "vid3.png")) := by decide

/-- Claim C3 as amended: every run that reaches the transcode step
invokes the encoder exactly once, on the downloaded source, with options
`-c:v h264`, `-hls_time 10`, `-hls_list_size 0`, `-f hls`,
`-vf scale=640:-2` and single output `/tmp/temp_hls/playlist.m3u8` — one
rendition, H.264 video and 10-second segments, with no rendition ladder
and no master playlist of variants. -/
theorem C3_single_transcode_invocation (vid raw : String) (env : Env)
    (hvid : vid.isEmpty = false)
    (hdb : env.dbLookup = some raw)
    (hdl : env.downloadOk = true) :
    transcodeEvents (transcodeHandler (some vid) env).events =
      [Event.ffmpegTranscode (localRawPath vid) hlsOutputOptions localHlsPlaylistPath] := by
  cases hth : env.thumbOk <;> cases htr : env.transcodeOk <;>
    simp [transcodeHandler, pipelineTry, transcodeEvents_append, transcodeEvents_upload_map,
      transcodeEvents, hvid, hdb, hdl, hth, htr, afterMkdirFs]

/-- Witness for the amended C3 at job id `vid3` in the all-success
environment. -/
theorem C3_single_transcode_invocation_witness :
    ("vid3" : String).isEmpty = false ∧
    transcodeEvents (transcodeHandler (some "vid3") envAllOk).events =
      [Event.ffmpegTranscode (localRawPath "vid3") hlsOutputOptions localHlsPlaylistPath] :=
  ⟨by decide, C3_single_transcode_invocation "vid3" "v.mp4" envAllOk rfl rfl rfl⟩

/-- Claim C4 fails on the code: two distinct job ids `jobA` and `jobB`
get exactly the same staging directories, the fixed `/tmp/temp_raw` and
`/tmp/temp_hls`, and neither path incorporates a job id, so concurrently
running jobs share their staging directories. -/
theorem C4_staging_paths_shared_across_jobs :
    mkdirPaths (transcodeHandler (some "jobA") envAllOk).events = [tempRawDir, tempHlsDir] ∧
    mkdirPaths (transcodeHandler (some "jobB") envAllOk).events = [tempRawDir, tempHlsDir] ∧
    containsStr tempRawDir "jobA" = false ∧
    containsStr tempHlsDir "jobA" = false ∧
    containsStr tempRawDir "jobB" = false ∧
    containsStr tempHlsDir "jobB" = false ∧
    ("jobA" : String) ≠ "jobB" := by decide

/-- Claim C5: whatever the request body and whatever the outcome of each
pipeline step, once the handler completes neither staging directory
exists and no staged file remains: the finally block removes both
directories on every exit path. -/
theorem C5_staging_cleanup_on_every_path (b : Option String) (env : Env) :
    (transcodeHandler b env).fs.rawDirExists = false ∧
    (transcodeHandler b env).fs.hlsDirExists = false ∧
    (transcodeHandler b env).fs.rawFiles = [] ∧
    (transcodeHandler b env).fs.hlsFiles = [] := by
  cases b with
  | none => simp [transcodeHandler, emptyFs]
  | some vid =>
    by_cases hvid : vid.isEmpty <;>
      simp [transcodeHandler, hvid, emptyFs, rmSyncTempHls, rmSyncTempRaw]

/-- Claim C6: every run that reaches the finalizing step (lookup,
download and transcode all succeeded) updates the record to status
`ready` with `hls_path` equal to `{jobId}/playlist.m3u8` and
`thumbnail_path` equal to `{jobId}.png` when the thumbnail was produced,
null otherwise. -/
theorem C6_finalize_record_update (vid raw : String) (env : Env)
    (hvid : vid.isEmpty = false)
    (hdb : env.dbLookup = some raw)
    (hdl : env.downloadOk = true)
    (htr : env.transcodeOk = true)
    (hseg : "thumbnail.png" ∉ env.segmentFiles) :
    finalUpdate (transcodeHandler (some vid) env).events =
      some (DbUpdate.ready (vid ++ "/playlist.m3u8")
        (if env.thumbOk then some (thumbnailFileName vid) else none)) := by
  cases hth : env.thumbOk <;>
    simp [transcodeHandler, pipelineTry, finalUpdate, hvid, hdb, hdl, hth, htr, hseg,
      dbUpdatesOf_append, dbUpdatesOf_upload_map, dbUpdatesOf, afterMkdirFs,
      String.append_assoc]

/-- Witness for C6 at job id `abc123` in the all-success environment. -/
theorem C6_finalize_record_update_witness :
    ("abc123" : String).isEmpty = false ∧
    "thumbnail.png" ∉ envAllOk.segmentFiles ∧
    finalUpdate (transcodeHandler (some "abc123") envAllOk).events =
      some (DbUpdate.ready ("abc123" ++ "/playlist.m3u8")
        (if envAllOk.thumbOk then some (thumbnailFileName "abc123") else none)) :=
  ⟨by decide, by decide,
    C6_finalize_record_update "abc123" "v.mp4" envAllOk rfl rfl rfl rfl (by decide)⟩

/-- Claim C7: when the record lookup fails (row absent or select error),
the run ends with the record updated to status `failed` and the trace
contains no blob store call, neither download nor upload. -/
theorem C7_lookup_failure_no_blob_ops (vid : String) (env : Env)
    (hvid : vid.isEmpty = false)
    (hdb : env.dbLookup = none) :
    finalUpdate (transcodeHandler (some vid) env).events = some DbUpdate.failed ∧
    ∀ e ∈ (transcodeHandler (some vid) env).events, e.isBlobStoreOp = false := by
  simp [transcodeHandler, pipelineTry, finalUpdate, dbUpdatesOf, hvid, hdb,
    Event.isBlobStoreOp]

/-- Witness for C7 at job id `abc123` in an environment whose record
lookup fails. -/
theorem C7_lookup_failure_no_blob_ops_witness :
    ("abc123" : String).isEmpty = false ∧
    envNoRecord.dbLookup = none ∧
    (finalUpdate (transcodeHandler (some "abc123") envNoRecord).events =
        some DbUpdate.failed ∧
      ∀ e ∈ (transcodeHandler (some "abc123") envNoRecord).events,
        e.isBlobStoreOp = false) :=
  ⟨by decide, rfl, C7_lookup_failure_no_blob_ops "abc123" envNoRecord rfl rfl⟩

/-- Claim C8: when the source download from the raw-uploads bucket fails,
the run ends with the record updated to status `failed` and the encoder
is never invoked, neither for thumbnail extraction nor for transcoding. -/
theorem C8_download_failure_no_encoder (vid raw : String) (env : Env)
    (hvid : vid.isEmpty = false)
    (hdb : env.dbLookup = some raw)
    (hdl : env.downloadOk = false) :
    finalUpdate (transcodeHandler (some vid) env).events = some DbUpdate.failed ∧
    ∀ e ∈ (transcodeHandler (some vid) env).events, e.isEncoderCall = false := by
  simp [transcodeHandler, pipelineTry, finalUpdate, dbUpdatesOf, hvid, hdb, hdl,
    Event.isEncoderCall]

/-- Witness for C8 at job id `abc123` in an environment whose download
fails. -/
theorem C8_download_failure_no_encoder_witness :
    ("abc123" : String).isEmpty = false ∧
    envNoDownload.downloadOk = false ∧
    (finalUpdate (transcodeHandler (some "abc123") envNoDownload).events =
        some DbUpdate.failed ∧
      ∀ e ∈ (transcodeHandler (some "abc123") envNoDownload).events,
        e.isEncoderCall = false) :=
  ⟨by decide, rfl, C8_download_failure_no_encoder "abc123" "v.mp4" envNoDownload rfl rfl rfl⟩

/-- Counterexample to claim C9: a request whose body carries
`videoId = ""` — a videoId that is present — receives a 400 response,
not the claimed 202, and no pipeline runs (the JS guard tests falsiness,
not presence). -/
theorem C9_empty_videoId_counterexample :
    (transcodeHandler (some "") envAllOk).response.status = 400 ∧
    (transcodeHandler (some "") envAllOk).response.status ≠ 202 ∧
    (transcodeHandler (some "") envAllOk).events = [Event.respond 400] := by decide

/-- Claim C9 as amended: a request with no videoId or an empty videoId
gets a 400 response with the error body and starts no pipeline; a
request with a non-empty videoId gets the 202 acknowledgment with the
message body, and the acknowledgment precedes every pipeline event in
the trace. -/
theorem C9_intake_responses (env : Env) :
    (∀ b : Option String, videoIdFalsy b = true →
      (transcodeHandler b env).response =
        { status := 400, body := .error "videoId is required" } ∧
      (transcodeHandler b env).events = [.respond 400]) ∧
    (∀ vid : String, vid.isEmpty = false →
      (transcodeHandler (some vid) env).response =
        { status := 202, body := .message ("Accepted. Processing video: " ++ vid) } ∧
      ∃ rest, (transcodeHandler (some vid) env).events = .respond 202 :: rest) := by
  constructor
  · intro b hb
    cases b with
    | none => simp [transcodeHandler]
    | some s =>
      simp [videoIdFalsy] at hb
      simp [transcodeHandler, hb]
  · intro vid hvid
    simp [transcodeHandler, hvid]

/-- Witness for the amended C9: an absent videoId gets 400, the job id
`abc123` gets 202. -/
theorem C9_intake_responses_witness :
    videoIdFalsy none = true ∧
    (transcodeHandler none envAllOk).response.status = 400 ∧
    ("abc123" : String).isEmpty = false ∧
    (transcodeHandler (some "abc123") envAllOk).response.status = 202 := by
  refine ⟨rfl, ?_, by decide, ?_⟩
  · rw [((C9_intake_responses envAllOk).1 none rfl).1]
  · rw [((C9_intake_responses envAllOk).2 "abc123" (by decide)).1]

/-- Claim C10 (implicit): a successful run that produced a thumbnail
uploads `thumbnail.png` to the hls bucket under key
`{videoId}/thumbnail.png` with content type `video/MP2T` (its name does
not end in `.m3u8`), in addition to the `{videoId}.png` upload to the
thumbnails bucket, because the thumbnail sits in the same staging
directory the upload loop enumerates. -/
theorem C10_thumbnail_uploaded_to_hls_bucket (vid raw : String) (env : Env)
    (hvid : vid.isEmpty = false)
    (hdb : env.dbLookup = some raw)
    (hdl : env.downloadOk = true)
    (hth : env.thumbOk = true)
    (htr : env.transcodeOk = true)
    (hup : ∀ f, env.hlsUploadOk f = true)
    (htu : env.thumbUploadOk = true) :
    (Event.storageUpload "hls" (vid ++ "/thumbnail.png") "video/MP2T" true)
        ∈ (transcodeHandler (some vid) env).events ∧
    (Event.storageUpload "thumbnails" (vid ++ ".png") "image/png" true)
        ∈ (transcodeHandler (some vid) env).events := by
  simp [transcodeHandler, pipelineTry, hvid, hdb, hdl, hth, htr, hup, htu,
    thumbnailFileName, hlsContentType, afterMkdirFs, String.append_assoc]
  exact Or.inl (by decide)

/-- Witness for C10 at job id `abc123` in the all-success environment. -/
theorem C10_thumbnail_uploaded_to_hls_bucket_witness :
    envAllOk.thumbOk = true ∧
    (∀ f, envAllOk.hlsUploadOk f = true) ∧
    ((Event.storageUpload "hls" ("abc123" ++ "/thumbnail.png") "video/MP2T" true)
        ∈ (transcodeHandler (some "abc123") envAllOk).events ∧
      (Event.storageUpload "thumbnails" ("abc123" ++ ".png") "image/png" true)
        ∈ (transcodeHandler (some "abc123") envAllOk).events) :=
  ⟨rfl, fun _ => rfl,
    C10_thumbnail_uploaded_to_hls_bucket "abc123" "v.mp4" envAllOk rfl rfl rfl rfl rfl
      (fun _ => rfl) rfl⟩
